import Mathlib

/-!
Verification of the trainer-dashboard core (scoring engine, category
registry, row-store gateway, tone-analysis trigger) against its
natural-language specification.

The embedding follows `src/app.py`.  Counts are natural numbers; the
floating-point arithmetic of the source is modelled with exact rationals;
fallible computations (Python exceptions) are modelled with `Option` or
with explicit success flags, mirroring the try/except structure of the
source.
-/

namespace TrainerDashboard

/-- The nine fixed content categories, in the declaration order of the
category tables of the source (`get_current_data`, `calculate_score`). -/
inductive Category
  | qna
  | workoutGuideline
  | dietGuideline
  | philosophy
  | injury
  | feedback
  | mealExamples
  | workoutExamples
  | tone
deriving DecidableEq, Repr

/-- Declaration-order list of the nine categories, matching the insertion
order of the `tables` dict in `get_current_data`. -/
def categories : List Category :=
  [Category.qna, Category.workoutGuideline, Category.dietGuideline,
   Category.philosophy, Category.injury, Category.feedback,
   Category.mealExamples, Category.workoutExamples, Category.tone]

/-- Position of a category in the declaration order. -/
def declIdx : Category → ℕ
  | Category.qna => 0
  | Category.workoutGuideline => 1
  | Category.dietGuideline => 2
  | Category.philosophy => 3
  | Category.injury => 4
  | Category.feedback => 5
  | Category.mealExamples => 6
  | Category.workoutExamples => 7
  | Category.tone => 8

/-- The fixed per-category goal counts, from the `target` dict in
`calculate_score`. -/
def target : Category → ℕ
  | Category.qna => 60
  | Category.workoutGuideline => 30
  | Category.dietGuideline => 20
  | Category.philosophy => 15
  | Category.injury => 12
  | Category.feedback => 10
  | Category.mealExamples => 15
  | Category.workoutExamples => 20
  | Category.tone => 8

/-- The fixed per-category weights, from the `weights` dict in
`calculate_score` (also repeated as `weights_dict` in `main`). -/
def weights : Category → ℚ
  | Category.qna => 23/100
  | Category.workoutGuideline => 18/100
  | Category.dietGuideline => 13/100
  | Category.philosophy => 9/100
  | Category.injury => 9/100
  | Category.feedback => 4/100
  | Category.mealExamples => 4/100
  | Category.workoutExamples => 10/100
  | Category.tone => 10/100

/-- Discrete completeness tier.  `unrated` is the source's 미달 outcome. -/
inductive Tier
  | gold
  | silver
  | bronze
  | unrated
deriving DecidableEq, Repr

/-- Tier decision of `calculate_score`: the if/elif chain on
`total_score`, evaluated high to low, first match wins. -/
def tier_of (total_score : ℚ) : Tier :=
  if total_score ≥ 85 then Tier.gold
  else if total_score ≥ 75 then Tier.silver
  else if total_score ≥ 60 then Tier.bronze
  else Tier.unrated

/-- Per-category achievement, the source line
`achievement = min((current_count / target_count) * 100, 100)`.
Python raises `ZeroDivisionError` when the target is `0`; that failure is
modelled as `none`. -/
def achievementOf (current_count target_count : ℕ) : Option ℚ :=
  if target_count = 0 then none
  else some (min (((current_count : ℚ) / (target_count : ℚ)) * 100) 100)

/-- Weighted per-category score, the source line
`score = achievement * weight`. -/
def categoryScore (counts : Category → ℕ) (c : Category) : Option ℚ :=
  (achievementOf (counts c) (target c)).map (fun a => a * weights c)

/-- Accumulated total, the `total_score += score` loop of
`calculate_score` over the nine categories. -/
def total_score (counts : Category → ℕ) : Option ℚ :=
  categories.foldl
    (fun acc c => acc.bind (fun t => (categoryScore counts c).map (fun s => t + s)))
    (some 0)

/-- The scoring engine `calculate_score`: total score together with the
tier derived from it.  The presentation outputs of the source (tier
color, formatted detail rows) are omitted; the numeric content of a
detail row is exposed by `achievementOf` and `categoryScore`. -/
def calculate_score (counts : Category → ℕ) : Option (ℚ × Tier) :=
  (total_score counts).map (fun t => (t, tier_of t))

/-- Modelled from the spec: the per-category weighted score as the spec
states it, `min(count / target * 100, 100) * weight`, for comparison with
the source-derived `categoryScore`. -/
def specCategoryScore (counts : Category → ℕ) (c : Category) : ℚ :=
  min (((counts c : ℚ) / (target c : ℚ)) * 100) 100 * weights c

/-- An entry of the shortfall ranking built in `main` (the `needed_data`
list): category, missing count (`needed = target - count`, an `int` in
the source) and `priority_score = (needed / target) * weight`. -/
structure NeededItem where
  category : Category
  needed : ℤ
  priority : ℚ
deriving DecidableEq, Repr

/-- Body of the `for category in current_data.keys()` loop of `main`:
compute `needed = target[category] - current_data[category]` and append
an entry when `needed > 0`. -/
def neededEntry (counts : Category → ℕ) (c : Category) : Option NeededItem :=
  let needed : ℤ := (target c : ℤ) - (counts c : ℤ)
  if 0 < needed then
    some ⟨c, needed, ((needed : ℚ) / (target c : ℚ)) * weights c⟩
  else none

/-- The unsorted `needed_data` list of `main`, in category declaration
order. -/
def needed_data (counts : Category → ℕ) : List NeededItem :=
  categories.filterMap (neededEntry counts)

/-- Comparison used by the descending stable sort
`needed_data.sort(key priority, reverse)` of the source. -/
def priorityGE (a b : NeededItem) : Prop :=
  b.priority ≤ a.priority

instance : DecidableRel priorityGE :=
  fun a b => inferInstanceAs (Decidable (b.priority ≤ a.priority))

/-- The ranked shortfall list: a stable descending sort of `needed_data`
by priority.  Python's list sort is stable; a stable insertion sort with
the same key order produces the identical list. -/
def ranked_needed (counts : Category → ℕ) : List NeededItem :=
  List.insertionSort priorityGE (needed_data counts)

/-- Urgency label attached in `main`: positions 1 to 3 of the surfaced
ranking get 긴급, the rest 중요. -/
def flagFun (p : ℕ × NeededItem) : NeededItem × String :=
  (p.2, if p.1 + 1 ≤ 3 then "🔴 긴급" else "🟡 중요")

/-- The surfaced ranking of `main`: `enumerate(needed_data[:5], 1)` with
its urgency labels (`i ≤ 3` urgent, otherwise important). -/
def surfaced_needed (counts : Category → ℕ) : List (NeededItem × String) :=
  ((ranked_needed counts).take 5).enum.map flagFun

/-- Strict ordering that expresses the claimed shape of the ranked list:
strictly greater priority first, ties resolved by category declaration
order. -/
def itemLT (a b : NeededItem) : Prop :=
  b.priority < a.priority ∨
    (a.priority = b.priority ∧ declIdx a.category < declIdx b.category)

/-- A stored row.  Payload columns and the creation timestamp are
abstracted away: the claims under verification concern row identity,
ownership and row counts only. -/
structure TrainerRow where
  id : ℤ
  trainer_id : String
deriving DecidableEq, Repr

/-- State of the row store and of the Streamlit read cache: rows per
table name, the next id the store will assign, the set of cached read
results (keyed by trainer and category), and a log of the SQL write
statements issued so far. -/
structure DBState where
  tableRows : String → List TrainerRow
  nextId : ℤ
  cache : List (String × String)
  log : List String

/-- An outbound HTTP POST of the tone-analysis trigger: endpoint path,
the trainer id passed as query parameter, and the timeout in seconds. -/
structure HttpPost where
  path : String
  trainer_id : String
  timeout : ℕ
deriving DecidableEq, Repr

/-- Outcome of an HTTP call: a status code, or a raised exception
(network failure or timeout). -/
inductive ToneResp
  | status (code : ℕ)
  | netError
deriving DecidableEq, Repr

/-- Environment of effects: whether SQL execution succeeds (an exception
is raised otherwise), whether the per-table count query succeeds, and the
response of the tone-analysis backend to a given request. -/
structure Env where
  dbOk : Bool
  countOk : String → Bool
  respond : HttpPost → ToneResp

def invalidCategoryMsg : String := "잘못된 카테고리입니다."
def deleteOkMsg : String := "✅ 삭제되었습니다!"
def deleteErrMsg : String := "❌ 삭제 실패"
def updateOkMsg : String := "✅ 수정되었습니다!"
def updateErrMsg : String := "❌ 수정 실패"
def addOkMsg : String := "✅ 데이터가 성공적으로 추가되었습니다!"
def addErrMsg : String := "❌ 에러 발생"
def toneAddOkMsg : String := "✅ 톤 데이터가 성공적으로 추가되고 분석되었습니다!"
def toneAddWarnStatusMsg : String := "⚠️ 톤 데이터는 저장되었으나 분석 실패"
def toneAddWarnErrMsg : String := "⚠️ 톤 데이터는 저장되었으나 분석 API 호출 실패"
def toneOkMsg : String := "✅ 톤 분석/적용이 완료되었습니다."
def toneFailMsg : String := "❌ 톤 분석 실패"
def toneReqErrMsg : String := "❌ 톤 분석 요청 오류"

/-- The category-to-table dict shared by `delete_data` and `update_data`
(the source repeats the identical dict in both). -/
def tables (category : String) : Option String :=
  if category = "QnA" then some "data_trainer_qna"
  else if category = "운동 가이드라인" then some "data_trainer_workout_guideline"
  else if category = "식단 가이드라인" then some "data_trainer_diet_guideline"
  else if category = "철학/마인드셋" then some "data_trainer_philosophy"
  else if category = "부상 관리" then some "data_trainer_injury"
  else if category = "피드백" then some "data_trainer_feedback"
  else if category = "식단 예시" then some "data_trainer_meal_examples"
  else if category = "운동 예시" then some "data_trainer_workout_examples"
  else if category = "톤/말투" then some "data_trainer_tones_raw"
  else none

/-- The category-to-(table, columns) dict of `get_category_data`. -/
def category_columns (category : String) : Option (String × List String) :=
  if category = "QnA" then
    some ("data_trainer_qna", ["id", "question", "answer", "category", "risk_level", "created_at"])
  else if category = "운동 가이드라인" then
    some ("data_trainer_workout_guideline", ["id", "title", "content", "category", "created_at"])
  else if category = "식단 가이드라인" then
    some ("data_trainer_diet_guideline", ["id", "title", "content", "category", "created_at"])
  else if category = "철학/마인드셋" then
    some ("data_trainer_philosophy", ["id", "content", "category", "created_at"])
  else if category = "부상 관리" then
    some ("data_trainer_injury", ["id", "title", "content", "body_part", "risk_level", "keywords", "created_at"])
  else if category = "피드백" then
    some ("data_trainer_feedback", ["id", "user_goal", "title", "content", "category", "keywords", "created_at"])
  else if category = "식단 예시" then
    some ("data_trainer_meal_examples", ["id", "title", "content", "category", "created_at"])
  else if category = "운동 예시" then
    some ("data_trainer_workout_examples", ["id", "title", "content", "category", "user_level", "created_at"])
  else if category = "톤/말투" then
    some ("data_trainer_tones_raw", ["id", "trainer_name", "raw_data", "created_at"])
  else none

/-- The category-name-to-table dict of `get_current_data`, in its
insertion order. -/
def count_tables : List (String × String) :=
  [("QnA", "data_trainer_qna"),
   ("운동 가이드라인", "data_trainer_workout_guideline"),
   ("식단 가이드라인", "data_trainer_diet_guideline"),
   ("철학/마인드셋", "data_trainer_philosophy"),
   ("부상 관리", "data_trainer_injury"),
   ("피드백", "data_trainer_feedback"),
   ("식단 예시", "data_trainer_meal_examples"),
   ("운동 예시", "data_trainer_workout_examples"),
   ("톤/말투", "data_trainer_tones_raw")]

/-- Effect of a committed `INSERT` into one table: append the new row,
advance the id sequence, record the statement.  The cache is untouched
(inserting never clears it in the source). -/
def insertRow (st : DBState) (t : String) (trainer_id : String) : DBState :=
  { st with
    tableRows := fun tb =>
      if tb = t then st.tableRows tb ++ [⟨st.nextId, trainer_id⟩] else st.tableRows tb,
    nextId := st.nextId + 1,
    log := st.log ++ ["INSERT " ++ t] }

/-- The dashboard count path `get_current_data`: one isolated
`SELECT COUNT(*) ... WHERE trainer_id` per category; a failing count
query is caught per category and recorded as 0. -/
def get_current_data (env : Env) (st : DBState) (trainer_id : String) :
    List (String × ℕ) :=
  count_tables.map (fun p =>
    (p.1,
     if env.countOk p.2 then
       ((st.tableRows p.2).filter (fun r => r.trainer_id = trainer_id)).length
     else 0))

/-- The listing path `get_category_data`: unknown category gives an empty
frame; a query failure is caught and also gives an empty frame; otherwise
the trainer's rows of the category table.  Recency ordering and column
projection are abstracted away. -/
def get_category_data (env : Env) (st : DBState) (trainer_id category : String) :
    List TrainerRow :=
  match category_columns category with
  | none => []
  | some tc =>
    if env.dbOk then
      (st.tableRows tc.1).filter (fun r => r.trainer_id = trainer_id)
    else []

/-- The delete operation `delete_data`: reject unknown categories before
touching storage; otherwise `DELETE ... WHERE id = data_id`, commit,
clear the whole read cache, report success; on a storage fault roll back
and report failure. -/
def delete_data (env : Env) (st : DBState) (category : String) (data_id : ℤ) :
    DBState × Bool × String :=
  match tables category with
  | none => (st, false, invalidCategoryMsg)
  | some t =>
    if env.dbOk then
      ({ st with
         tableRows := fun tb =>
           if tb = t then (st.tableRows tb).filter (fun r => r.id ≠ data_id)
           else st.tableRows tb,
         log := st.log ++ ["DELETE " ++ t],
         cache := [] },
       true, deleteOkMsg)
    else (st, false, deleteErrMsg)

/-- The manual tone trigger `trigger_tone_analyze`: one POST to
`/admin/analyze_tone` with a 15 second timeout; status 200 is success,
any other status or a raised exception is failure. -/
def analyzeToneReq (trainer_id : String) (timeout : ℕ) : HttpPost :=
  ⟨"/admin/analyze_tone", trainer_id, timeout⟩

def trigger_tone_analyze (env : Env) (trainer_id : String) : Bool × String :=
  match env.respond (analyzeToneReq trainer_id 15) with
  | ToneResp.status code =>
    if code = 200 then (true, toneOkMsg) else (false, toneFailMsg)
  | ToneResp.netError => (false, toneReqErrMsg)

/-- The update operation `update_data`: reject unknown categories before
touching storage; otherwise `UPDATE ... WHERE id = data_id`, commit,
clear the whole read cache, report success; on a storage fault roll back
and report failure.  The updated field values are abstracted away (row
ids and ownership are unchanged by an update). -/
def update_data (env : Env) (st : DBState) (category : String) (data_id : ℤ) :
    DBState × Bool × String :=
  match tables category with
  | none => (st, false, invalidCategoryMsg)
  | some t =>
    if env.dbOk then
      ({ st with
         log := st.log ++ ["UPDATE " ++ t],
         cache := [] },
       true, updateOkMsg)
    else (st, false, updateErrMsg)

/-- One plain insert branch of `add_data`: execute the `INSERT`, commit,
report success; if the execution raises, roll back and report failure.
The payload columns are abstracted away. -/
def plainAdd (env : Env) (st : DBState) (trainer_id t : String) :
    DBState × Bool × String :=
  if env.dbOk then (insertRow st t trainer_id, true, addOkMsg)
  else (st, false, addErrMsg)

/-- The insert operation `add_data`: an if/elif chain over the nine
category names.  The tone category additionally commits first and then
fires the analysis POST with a 30 second timeout, reporting success with
a warning message when the analysis fails.  A category matching none of
the branches falls through to the final commit and success return.  On a
storage fault the transaction is rolled back and failure reported. -/
def add_data (env : Env) (st : DBState) (trainer_id category : String) :
    DBState × Bool × String :=
  if category = "QnA" then plainAdd env st trainer_id "data_trainer_qna"
  else if category = "운동 가이드라인" then
    plainAdd env st trainer_id "data_trainer_workout_guideline"
  else if category = "식단 가이드라인" then
    plainAdd env st trainer_id "data_trainer_diet_guideline"
  else if category = "철학/마인드셋" then
    plainAdd env st trainer_id "data_trainer_philosophy"
  else if category = "부상 관리" then plainAdd env st trainer_id "data_trainer_injury"
  else if category = "피드백" then plainAdd env st trainer_id "data_trainer_feedback"
  else if category = "식단 예시" then
    plainAdd env st trainer_id "data_trainer_meal_examples"
  else if category = "운동 예시" then
    plainAdd env st trainer_id "data_trainer_workout_examples"
  else if category = "톤/말투" then
    if env.dbOk then
      match env.respond (analyzeToneReq trainer_id 30) with
      | ToneResp.status code =>
        if code = 200 then
          (insertRow st "data_trainer_tones_raw" trainer_id, true, toneAddOkMsg)
        else
          (insertRow st "data_trainer_tones_raw" trainer_id, true, toneAddWarnStatusMsg)
      | ToneResp.netError =>
        (insertRow st "data_trainer_tones_raw" trainer_id, true, toneAddWarnErrMsg)
    else (st, false, addErrMsg)
  else (st, true, addOkMsg)

/-- An empty store with an empty cache. -/
def st0 : DBState :=
  { tableRows := fun _ => [], nextId := 1, cache := [], log := [] }

/-- An empty store whose read cache holds one cached listing. -/
def st1 : DBState :=
  { tableRows := fun _ => [], nextId := 1, cache := [("tr_001", "QnA")], log := [] }

/-- A healthy environment: storage works, every count succeeds, the tone
backend is unreachable. -/
def env0 : Env :=
  { dbOk := true, countOk := fun _ => true, respond := fun _ => ToneResp.netError }

/-- A healthy environment whose tone backend answers status 201. -/
def env201 : Env :=
  { dbOk := true, countOk := fun _ => true, respond := fun _ => ToneResp.status 201 }

lemma total_score_eq (counts : Category → ℕ) :
    total_score counts = some ((categories.map (specCategoryScore counts)).sum) := by
  simp [total_score, categories, categoryScore, achievementOf, target, weights,
    specCategoryScore]
  ring

lemma specCategoryScore_nonneg (counts : Category → ℕ) (c : Category) :
    0 ≤ specCategoryScore counts c := by
  have h1 : (0 : ℚ) ≤ min (((counts c : ℚ) / (target c : ℚ)) * 100) 100 := by
    apply le_min
    · positivity
    · norm_num
  have h2 : (0 : ℚ) ≤ weights c := by cases c <;> norm_num [weights]
  exact mul_nonneg h1 h2

lemma specCategoryScore_le (counts : Category → ℕ) (c : Category) :
    specCategoryScore counts c ≤ 100 * weights c := by
  have h1 : min (((counts c : ℚ) / (target c : ℚ)) * 100) 100 ≤ 100 := min_le_right _ _
  have h2 : (0 : ℚ) ≤ weights c := by cases c <;> norm_num [weights]
  calc specCategoryScore counts c
      ≤ 100 * weights c := mul_le_mul_of_nonneg_right h1 h2

/-- C1: calculate_score implements the stated algorithm over the fixed
configuration: the returned total is the sum over the nine categories of
`min(count / target * 100, 100) * weight`, the tier is derived from that
total; counts exactly at the targets give total `100` and tier Gold, and
counts all zero except QnA = 30 give QnA achievement `50`, QnA category
score `11.5`, total `11.5`, tier Unrated. -/
theorem calculate_score_implements_spec :
    (∀ counts : Category → ℕ,
      calculate_score counts =
        some ((categories.map (specCategoryScore counts)).sum,
              tier_of ((categories.map (specCategoryScore counts)).sum)))
    ∧ calculate_score (fun c => target c) = some (100, Tier.gold)
    ∧ achievementOf 30 (target Category.qna) = some 50
    ∧ categoryScore (fun c => if c = Category.qna then 30 else 0) Category.qna
        = some (23/2)
    ∧ total_score (fun c => if c = Category.qna then 30 else 0) = some (23/2)
    ∧ calculate_score (fun c => if c = Category.qna then 30 else 0)
        = some (23/2, Tier.unrated) := by
  refine ⟨?_, ?_, ?_, ?_, ?_, ?_⟩
  · intro counts
    rw [calculate_score, total_score_eq]
    rfl
  · rw [calculate_score, total_score_eq]
    have hsum : (categories.map (specCategoryScore (fun c => target c))).sum = 100 := by
      simp [categories, specCategoryScore, target, weights, min_def]
      norm_num
    rw [hsum]
    norm_num [tier_of]
  · rw [achievementOf]
    norm_num [target, min_def]
  · rw [categoryScore, achievementOf]
    norm_num [target, weights, min_def]
  · rw [total_score_eq]
    have hsum : (categories.map
        (specCategoryScore (fun c => if c = Category.qna then 30 else 0))).sum = 23/2 := by
      simp [categories, specCategoryScore, target, weights, min_def]
      norm_num
    rw [hsum]
  · rw [calculate_score, total_score_eq]
    have hsum : (categories.map
        (specCategoryScore (fun c => if c = Category.qna then 30 else 0))).sum = 23/2 := by
      simp [categories, specCategoryScore, target, weights, min_def]
      norm_num
    rw [hsum]
    norm_num [tier_of]

/-- C2: for every assignment of counts to the nine categories, the total
score returned by calculate_score lies between 0 and 100. -/
theorem total_score_bounded (counts : Category → ℕ) (t : ℚ)
    (h : total_score counts = some t) : 0 ≤ t ∧ t ≤ 100 := by
  rw [total_score_eq] at h
  have ht : t = (categories.map (specCategoryScore counts)).sum := by
    exact (Option.some.injEq _ _ ▸ h).symm
  subst ht
  constructor
  · apply List.sum_nonneg
    intro x hx
    obtain ⟨c, _, rfl⟩ := List.mem_map.mp hx
    exact specCategoryScore_nonneg counts c
  · have h1 := specCategoryScore_le counts Category.qna
    have h2 := specCategoryScore_le counts Category.workoutGuideline
    have h3 := specCategoryScore_le counts Category.dietGuideline
    have h4 := specCategoryScore_le counts Category.philosophy
    have h5 := specCategoryScore_le counts Category.injury
    have h6 := specCategoryScore_le counts Category.feedback
    have h7 := specCategoryScore_le counts Category.mealExamples
    have h8 := specCategoryScore_le counts Category.workoutExamples
    have h9 := specCategoryScore_le counts Category.tone
    simp only [categories, List.map_cons, List.map_nil, List.sum_cons, List.sum_nil]
    norm_num [weights] at h1 h2 h3 h4 h5 h6 h7 h8 h9 ⊢
    linarith

/-- Witness for C2 at the all-zero count map. -/
theorem total_score_bounded_witness : (0 : ℚ) ≤ 0 ∧ (0 : ℚ) ≤ 100 :=
  total_score_bounded (fun _ => 0) 0 (by
    rw [total_score_eq]
    simp [categories, specCategoryScore, target, weights, min_def])

/-- C3: tier assignment evaluates thresholds high to low with first match
winning and inclusive boundaries: total ≥ 85 gives Gold, 75 ≤ total < 85
gives Silver, 60 ≤ total < 75 gives Bronze, total < 60 gives Unrated; in
particular a total of exactly 60 gives Bronze and 59.999 gives Unrated. -/
theorem tier_of_thresholds :
    (∀ t : ℚ,
      (85 ≤ t → tier_of t = Tier.gold)
      ∧ (75 ≤ t → t < 85 → tier_of t = Tier.silver)
      ∧ (60 ≤ t → t < 75 → tier_of t = Tier.bronze)
      ∧ (t < 60 → tier_of t = Tier.unrated))
    ∧ tier_of 60 = Tier.bronze
    ∧ tier_of (59999/1000) = Tier.unrated := by
  refine ⟨fun t => ⟨?_, ?_, ?_, ?_⟩, by norm_num [tier_of], by norm_num [tier_of]⟩
  · intro h
    rw [tier_of, if_pos h]
  · intro h1 h2
    rw [tier_of, if_neg (by exact not_le.mpr h2), if_pos h1]
  · intro h1 h2
    rw [tier_of, if_neg (by exact not_le.mpr (lt_of_lt_of_le h2 (by norm_num))),
      if_neg (by exact not_le.mpr h2), if_pos h1]
  · intro h
    rw [tier_of, if_neg (by exact not_le.mpr (lt_of_lt_of_le h (by norm_num))),
      if_neg (by exact not_le.mpr (lt_of_lt_of_le h (by norm_num))),
      if_neg (by exact not_le.mpr h)]

/-- Witness for C3 at a concrete total of 90. -/
theorem tier_of_thresholds_witness : tier_of 90 = Tier.gold :=
  (tier_of_thresholds.1 90).1 (by norm_num)

/-- C5 counterexample: the achievement computation of calculate_score has
no zero-target guard — at count 5 and target 0 it fails (the division
raises) instead of being treated as 100 percent achieved. -/
theorem achievementOf_zero_target_fails :
    achievementOf 5 0 = none ∧ achievementOf 5 0 ≠ some 100 := by
  decide

/-- C5 amended: all nine fixed targets are positive, so calculate_score
never performs a division by zero for any counts input; the code contains
no zero-target guard, and a zero target would make the computation fail
rather than count as fully achieved. -/
theorem calculate_score_no_division_by_zero :
    (∀ c : Category, 0 < target c)
    ∧ (∀ counts : Category → ℕ, (calculate_score counts).isSome = true) := by
  constructor
  · intro c
    cases c <;> norm_num [target]
  · intro counts
    rw [calculate_score, total_score_eq]
    rfl

lemma itemLT_of_ge_of_idx {a b : NeededItem} (hpri : b.priority ≤ a.priority)
    (hidx : declIdx a.category < declIdx b.category) : itemLT a b := by
  rcases eq_or_lt_of_le hpri with h | h
  · exact Or.inr ⟨h.symm, hidx⟩
  · exact Or.inl h

lemma itemLT_le {a b : NeededItem} (h : itemLT a b) : b.priority ≤ a.priority := by
  rcases h with h | ⟨h, _⟩
  · exact le_of_lt h
  · exact le_of_eq h.symm

lemma pairwise_orderedInsert (x : NeededItem) (l : List NeededItem)
    (hl : l.Pairwise itemLT)
    (hidx : ∀ y ∈ l, declIdx x.category < declIdx y.category) :
    (List.orderedInsert priorityGE x l).Pairwise itemLT := by
  induction l with
  | nil => simp [List.orderedInsert]
  | cons b t ih =>
    rcases List.pairwise_cons.mp hl with ⟨hb, ht⟩
    simp only [List.orderedInsert]
    by_cases h : priorityGE x b
    · rw [if_pos h]
      refine List.pairwise_cons.mpr ⟨?_, hl⟩
      intro y hy
      rcases List.mem_cons.mp hy with rfl | hyt
      · exact itemLT_of_ge_of_idx h (hidx y (List.mem_cons_self _ _))
      · exact itemLT_of_ge_of_idx (le_trans (itemLT_le (hb y hyt)) h)
          (hidx y (List.mem_cons.mpr (Or.inr hyt)))
    · rw [if_neg h]
      refine List.pairwise_cons.mpr
        ⟨?_, ih ht (fun y hy => hidx y (List.mem_cons.mpr (Or.inr hy)))⟩
      intro y hy
      rcases (List.mem_orderedInsert priorityGE).mp hy with rfl | hyt
      · exact Or.inl (lt_of_not_le h)
      · exact hb y hyt

lemma pairwise_insertionSort_itemLT (l : List NeededItem)
    (h : l.Pairwise (fun a b => declIdx a.category < declIdx b.category)) :
    (List.insertionSort priorityGE l).Pairwise itemLT := by
  induction l with
  | nil => simp [List.insertionSort]
  | cons x xs ih =>
    rcases List.pairwise_cons.mp h with ⟨hx, hxs⟩
    simp only [List.insertionSort]
    refine pairwise_orderedInsert x _ (ih hxs) ?_
    intro y hy
    exact hx y ((List.perm_insertionSort priorityGE xs).mem_iff.mp hy)

lemma neededEntry_category {counts : Category → ℕ} {c : Category} {e : NeededItem}
    (h : neededEntry counts c = some e) : e.category = c := by
  simp only [neededEntry] at h
  split at h
  · simp only [Option.some.injEq] at h
    subst h
    rfl
  · simp at h

lemma needed_data_pairwise_idx (counts : Category → ℕ) :
    (needed_data counts).Pairwise
      (fun a b => declIdx a.category < declIdx b.category) := by
  have hcat : categories.Pairwise (fun a b => declIdx a < declIdx b) := by decide
  rw [needed_data]
  refine List.pairwise_filterMap.mpr (hcat.imp ?_)
  intro c c' hcc e he e' he'
  rw [neededEntry_category (Option.mem_def.mp he),
    neededEntry_category (Option.mem_def.mp he')]
  exact hcc

lemma category_mem_categories (c : Category) : c ∈ categories := by
  cases c <;> simp [categories]

lemma mem_ranked_needed_iff (counts : Category → ℕ) (c : Category) :
    (∃ e ∈ ranked_needed counts, e.category = c) ↔ counts c < target c := by
  constructor
  · rintro ⟨e, he, rfl⟩
    obtain ⟨c', hc', hfc⟩ := List.mem_filterMap.mp
      ((List.perm_insertionSort priorityGE (needed_data counts)).mem_iff.mp he)
    rw [neededEntry_category hfc]
    simp only [neededEntry] at hfc
    by_cases hcond : (0 : ℤ) < (target c' : ℤ) - (counts c' : ℤ)
    · omega
    · rw [if_neg hcond] at hfc
      simp at hfc
  · intro h
    have hcond : (0 : ℤ) < (target c : ℤ) - (counts c : ℤ) := by omega
    rcases he : neededEntry counts c with _ | e
    · exfalso
      simp only [neededEntry] at he
      rw [if_pos hcond] at he
      simp at he
    · exact ⟨e, (List.perm_insertionSort priorityGE (needed_data counts)).mem_iff.mpr
        (List.mem_filterMap.mpr ⟨c, category_mem_categories c, he⟩),
        neededEntry_category he⟩

lemma ranked_needed_fields (counts : Category → ℕ) :
    ∀ e ∈ ranked_needed counts,
      e.needed = (target e.category : ℤ) - (counts e.category : ℤ)
      ∧ e.priority = ((((target e.category : ℤ) - (counts e.category : ℤ)) : ℚ)
          / (target e.category : ℚ)) * weights e.category := by
  intro e he
  obtain ⟨c', hc', hfc⟩ := List.mem_filterMap.mp
    ((List.perm_insertionSort priorityGE (needed_data counts)).mem_iff.mp he)
  have hcat := neededEntry_category hfc
  simp only [neededEntry] at hfc
  by_cases hcond : (0 : ℤ) < (target c' : ℤ) - (counts c' : ℤ)
  · rw [if_pos hcond] at hfc
    simp only [Option.some.injEq] at hfc
    subst hfc
    refine ⟨rfl, ?_⟩
    dsimp only
    push_cast
    ring
  · rw [if_neg hcond] at hfc
    simp at hfc

lemma enumFrom_map_snd {α : Type} : ∀ (k : ℕ) (l : List α),
    (List.enumFrom k l).map Prod.snd = l := by
  intro k l
  induction l generalizing k with
  | nil => rfl
  | cons a t ih => simp [List.enumFrom, ih]

lemma enumFrom_take_fst_lt {α : Type} : ∀ (l : List α) (k n : ℕ) (p : ℕ × α),
    p ∈ (List.enumFrom k l).take n → p.1 < k + n := by
  intro l
  induction l with
  | nil =>
    intro k n p hp
    simp at hp
  | cons a t ih =>
    intro k n p hp
    cases n with
    | zero => simp at hp
    | succ m =>
      simp only [List.enumFrom, List.take] at hp
      rcases List.mem_cons.mp hp with rfl | hp2
      · dsimp only
        omega
      · have := ih (k + 1) m p hp2
        omega

lemma enumFrom_fst_ge {α : Type} : ∀ (l : List α) (k : ℕ) (p : ℕ × α),
    p ∈ List.enumFrom k l → k ≤ p.1 := by
  intro l
  induction l with
  | nil =>
    intro k p hp
    simp at hp
  | cons a t ih =>
    intro k p hp
    simp only [List.enumFrom] at hp
    rcases List.mem_cons.mp hp with rfl | hp2
    · dsimp only
      omega
    · have := ih (k + 1) p hp2
      omega

lemma enumFrom_drop_fst_ge {α : Type} : ∀ (l : List α) (k n : ℕ) (p : ℕ × α),
    p ∈ (List.enumFrom k l).drop n → k + n ≤ p.1 := by
  intro l
  induction l with
  | nil =>
    intro k n p hp
    simp at hp
  | cons a t ih =>
    intro k n p hp
    cases n with
    | zero =>
      have := enumFrom_fst_ge (a :: t) k p (by simpa using hp)
      omega
    | succ m =>
      simp only [List.enumFrom, List.drop] at hp
      have := ih (k + 1) m p hp
      omega

lemma surfaced_parts (l : List NeededItem) :
    ((l.take 5).enum.map flagFun).map Prod.fst = l.take 5
    ∧ ((l.take 5).enum.map flagFun).length ≤ 5
    ∧ (∀ p ∈ ((l.take 5).enum.map flagFun).take 3, p.2 = "🔴 긴급")
    ∧ (∀ p ∈ ((l.take 5).enum.map flagFun).drop 3, p.2 = "🟡 중요") := by
  refine ⟨?_, ?_, ?_, ?_⟩
  · rw [List.map_map]
    have hcomp : (Prod.fst ∘ flagFun) = (Prod.snd : ℕ × NeededItem → NeededItem) := by
      funext p
      rfl
    rw [hcomp]
    exact enumFrom_map_snd 0 (l.take 5)
  · rw [List.length_map, List.enum_length, List.length_take]
    exact min_le_left _ _
  · intro p hp
    rw [← List.map_take] at hp
    obtain ⟨q, hq, rfl⟩ := List.mem_map.mp hp
    have hlt : q.1 < 3 := by
      have := enumFrom_take_fst_lt (l.take 5) 0 3 q (by simpa [List.enum] using hq)
      omega
    have hcond : q.1 + 1 ≤ 3 := by omega
    simp [flagFun, hcond]
  · intro p hp
    rw [← List.map_drop] at hp
    obtain ⟨q, hq, rfl⟩ := List.mem_map.mp hp
    have hge : 3 ≤ q.1 := by
      have := enumFrom_drop_fst_ge (l.take 5) 0 3 q (by simpa [List.enum] using hq)
      omega
    have hcond : ¬ (q.1 + 1 ≤ 3) := by omega
    simp [flagFun, hcond]

/-- C4: the shortfall ranking contains a category exactly when its count
is below target; every entry carries the shortfall and the priority
formula `(target - count) / target * weight`; the list is ordered by
strictly descending priority with ties in category declaration order;
the surfaced portion is the first five entries, of which the first three
are flagged urgent and the following up to two important. -/
theorem shortfall_priority_ranking (counts : Category → ℕ) :
    (∀ c, (∃ e ∈ ranked_needed counts, e.category = c) ↔ counts c < target c)
    ∧ (∀ e ∈ ranked_needed counts,
        e.needed = (target e.category : ℤ) - (counts e.category : ℤ)
        ∧ e.priority = ((((target e.category : ℤ) - (counts e.category : ℤ)) : ℚ)
            / (target e.category : ℚ)) * weights e.category)
    ∧ (ranked_needed counts).Pairwise itemLT
    ∧ (surfaced_needed counts).map Prod.fst = (ranked_needed counts).take 5
    ∧ (surfaced_needed counts).length ≤ 5
    ∧ (∀ p ∈ (surfaced_needed counts).take 3, p.2 = "🔴 긴급")
    ∧ (∀ p ∈ (surfaced_needed counts).drop 3, p.2 = "🟡 중요") := by
  obtain ⟨hmap, hlen, htake, hdrop⟩ := surfaced_parts (ranked_needed counts)
  exact ⟨mem_ranked_needed_iff counts, ranked_needed_fields counts,
    pairwise_insertionSort_itemLT _ (needed_data_pairwise_idx counts),
    hmap, hlen, htake, hdrop⟩

/-- Witness for C4: with every count zero the QnA category, being below
its target, appears in the ranking. -/
theorem shortfall_priority_ranking_witness :
    (0 : ℕ) < target Category.qna
    ∧ ∃ e ∈ ranked_needed (fun _ => 0), e.category = Category.qna :=
  ⟨by decide,
    ((shortfall_priority_ranking (fun _ => 0)).1 Category.qna).mpr (by decide)⟩

lemma tables_eq_none_parts (category : String) (h : tables category = none) :
    category ≠ "QnA" ∧ category ≠ "운동 가이드라인" ∧ category ≠ "식단 가이드라인"
    ∧ category ≠ "철학/마인드셋" ∧ category ≠ "부상 관리" ∧ category ≠ "피드백"
    ∧ category ≠ "식단 예시" ∧ category ≠ "운동 예시" ∧ category ≠ "톤/말투" := by
  refine ⟨?_, ?_, ?_, ?_, ?_, ?_, ?_, ?_, ?_⟩ <;>
    intro he <;> subst he <;> simp [tables] at h

/-- C6 counterexample: add_data called with a category outside the fixed
set of nine does not reject the call — it falls through the branch chain
and returns a success outcome (while writing nothing). -/
theorem add_data_unknown_category_not_rejected :
    tables "기타" = none
    ∧ add_data env0 st0 "tr_001" "기타" = (st0, true, addOkMsg) := by
  constructor
  · rfl
  · rfl

/-- C6 amended: update_data and delete_data reject a category outside
the fixed set with a failure result before touching storage, and
get_category_data returns an empty result; add_data also touches no
storage for an unknown category but returns a success outcome rather
than a failure. -/
theorem unknown_category_rejected (env : Env) (st : DBState) (tid category : String)
    (data_id : ℤ) (h : tables category = none) :
    delete_data env st category data_id = (st, false, invalidCategoryMsg)
    ∧ update_data env st category data_id = (st, false, invalidCategoryMsg)
    ∧ get_category_data env st tid category = []
    ∧ add_data env st tid category = (st, true, addOkMsg) := by
  obtain ⟨h1, h2, h3, h4, h5, h6, h7, h8, h9⟩ := tables_eq_none_parts category h
  refine ⟨?_, ?_, ?_, ?_⟩
  · simp [delete_data, h]
  · simp [update_data, h]
  · have hc : category_columns category = none := by
      simp [category_columns, h1, h2, h3, h4, h5, h6, h7, h8, h9]
    simp [get_category_data, hc]
  · simp [add_data, h1, h2, h3, h4, h5, h6, h7, h8, h9]

/-- Witness for C6 amended at the unknown category 기타. -/
theorem unknown_category_rejected_witness :
    update_data env0 st0 "기타" 1 = (st0, false, invalidCategoryMsg) :=
  (unknown_category_rejected env0 st0 "tr_001" "기타" 1 rfl).2.1

lemma plainAdd_cache (env : Env) (st : DBState) (tid t : String) :
    (plainAdd env st tid t).1.cache = st.cache := by
  rw [plainAdd]
  split_ifs <;> rfl

lemma add_data_cache (env : Env) (st : DBState) (tid category : String) :
    (add_data env st tid category).1.cache = st.cache := by
  unfold add_data
  by_cases h1 : category = "QnA"
  · rw [if_pos h1]; exact plainAdd_cache env st tid _
  rw [if_neg h1]
  by_cases h2 : category = "운동 가이드라인"
  · rw [if_pos h2]; exact plainAdd_cache env st tid _
  rw [if_neg h2]
  by_cases h3 : category = "식단 가이드라인"
  · rw [if_pos h3]; exact plainAdd_cache env st tid _
  rw [if_neg h3]
  by_cases h4 : category = "철학/마인드셋"
  · rw [if_pos h4]; exact plainAdd_cache env st tid _
  rw [if_neg h4]
  by_cases h5 : category = "부상 관리"
  · rw [if_pos h5]; exact plainAdd_cache env st tid _
  rw [if_neg h5]
  by_cases h6 : category = "피드백"
  · rw [if_pos h6]; exact plainAdd_cache env st tid _
  rw [if_neg h6]
  by_cases h7 : category = "식단 예시"
  · rw [if_pos h7]; exact plainAdd_cache env st tid _
  rw [if_neg h7]
  by_cases h8 : category = "운동 예시"
  · rw [if_pos h8]; exact plainAdd_cache env st tid _
  rw [if_neg h8]
  by_cases h9 : category = "톤/말투"
  · rw [if_pos h9]
    by_cases hdb : env.dbOk = true
    · rw [if_pos hdb]
      cases hresp : env.respond (analyzeToneReq tid 30) with
      | status code =>
        dsimp only
        by_cases hc : code = 200
        · rw [if_pos hc]; rfl
        · rw [if_neg hc]; rfl
      | netError => rfl
    · rw [if_neg hdb]
  · rw [if_neg h9]

/-- C7 counterexample: a successful insert through add_data leaves the
read cache exactly as it was instead of invalidating it. -/
theorem add_data_does_not_clear_cache :
    (add_data env0 st1 "tr_001" "QnA").2.1 = true
    ∧ (add_data env0 st1 "tr_001" "QnA").1.cache = [("tr_001", "QnA")] := by
  constructor
  · rfl
  · rfl

/-- C7 amended: update_data and delete_data clear the entire read cache
on success; add_data never invalidates the cache, not even on a
successful insert. -/
theorem mutation_cache_invalidation (env : Env) (st : DBState) (category tid : String)
    (data_id : ℤ) :
    ((update_data env st category data_id).2.1 = true →
      (update_data env st category data_id).1.cache = [])
    ∧ ((delete_data env st category data_id).2.1 = true →
      (delete_data env st category data_id).1.cache = [])
    ∧ (add_data env st tid category).1.cache = st.cache := by
  refine ⟨?_, ?_, add_data_cache env st tid category⟩
  · rcases h : tables category with _ | t <;> simp [update_data, h]
    by_cases hdb : env.dbOk <;> simp [hdb]
  · rcases h : tables category with _ | t <;> simp [delete_data, h]
    by_cases hdb : env.dbOk <;> simp [hdb]

/-- Witness for C7 amended at a successful concrete update. -/
theorem mutation_cache_invalidation_witness :
    (update_data env0 st1 "QnA" 1).1.cache = [] :=
  (mutation_cache_invalidation env0 st1 "QnA" "tr_001" 1).1 rfl

/-- C8 counterexample: a status-201 response is a 2xx success at the
HTTP level, yet the manual tone trigger reports failure — the source
tests for status 200 exactly, not for the 2xx range. -/
theorem trigger_tone_201_reports_failure :
    ((200 : ℕ) ≤ 201 ∧ (201 : ℕ) < 300)
    ∧ trigger_tone_analyze env201 "tr_001" = (false, toneFailMsg) :=
  ⟨by norm_num, rfl⟩

/-- C8 amended: with working storage a tone-sample insert always reports
success — the committed row stays in the store whatever the analysis
call does, with the full success message exactly on status 200 and a
warning message otherwise; the manual trigger reports success exactly on
status 200 (so other 2xx codes count as failures); the trigger after
insert uses a 30 second timeout and the manual trigger 15 seconds. -/
theorem tone_trigger_soft_failure (respond : HttpPost → ToneResp)
    (countOk : String → Bool) (st : DBState) (tid : String) :
    (add_data ⟨true, countOk, respond⟩ st tid "톤/말투").2.1 = true
    ∧ (add_data ⟨true, countOk, respond⟩ st tid "톤/말투").1.tableRows "data_trainer_tones_raw"
        = st.tableRows "data_trainer_tones_raw" ++ [⟨st.nextId, tid⟩]
    ∧ ((add_data ⟨true, countOk, respond⟩ st tid "톤/말투").2.2 = toneAddOkMsg
        ↔ respond (analyzeToneReq tid 30) = ToneResp.status 200)
    ∧ ((trigger_tone_analyze ⟨true, countOk, respond⟩ tid).1 = true
        ↔ respond (analyzeToneReq tid 15) = ToneResp.status 200)
    ∧ (analyzeToneReq tid 30).timeout = 30
    ∧ (analyzeToneReq tid 15).timeout = 15 := by
  have hred : add_data ⟨true, countOk, respond⟩ st tid "톤/말투"
      = match respond (analyzeToneReq tid 30) with
        | ToneResp.status code =>
          if code = 200 then (insertRow st "data_trainer_tones_raw" tid, true, toneAddOkMsg)
          else (insertRow st "data_trainer_tones_raw" tid, true, toneAddWarnStatusMsg)
        | ToneResp.netError =>
          (insertRow st "data_trainer_tones_raw" tid, true, toneAddWarnErrMsg) := rfl
  have htr : trigger_tone_analyze ⟨true, countOk, respond⟩ tid
      = match respond (analyzeToneReq tid 15) with
        | ToneResp.status code =>
          if code = 200 then (true, toneOkMsg) else (false, toneFailMsg)
        | ToneResp.netError => (false, toneReqErrMsg) := rfl
  refine ⟨?_, ?_, ?_, ?_, rfl, rfl⟩
  · rw [hred]
    rcases respond (analyzeToneReq tid 30) with code | _
    · by_cases hc : code = 200 <;> simp [hc]
    · rfl
  · rw [hred]
    rcases respond (analyzeToneReq tid 30) with code | _
    · by_cases hc : code = 200 <;> simp [hc, insertRow]
    · simp [insertRow]
  · rw [hred]
    rcases respond (analyzeToneReq tid 30) with code | _
    · by_cases hc : code = 200 <;> simp [hc, toneAddOkMsg, toneAddWarnStatusMsg]
    · simp [toneAddOkMsg, toneAddWarnErrMsg]
  · rw [htr]
    rcases respond (analyzeToneReq tid 15) with code | _
    · by_cases hc : code = 200 <;> simp [hc]
    · simp

/-- C9: get_current_data always returns a count for each of the nine
categories, in declaration order, and always succeeds overall; the value
reported for a category depends only on that category's own count query:
the trainer's row count when it succeeds, degrading to 0 when it fails,
with the other categories unaffected. -/
theorem get_current_data_total (env : Env) (st : DBState) (tid : String) :
    (get_current_data env st tid).map Prod.fst
      = ["QnA", "운동 가이드라인", "식단 가이드라인", "철학/마인드셋", "부상 관리",
         "피드백", "식단 예시", "운동 예시", "톤/말투"]
    ∧ (∀ name tbl, (name, tbl) ∈ count_tables →
        (name,
          if env.countOk tbl then
            ((st.tableRows tbl).filter (fun r => r.trainer_id = tid)).length
          else 0) ∈ get_current_data env st tid)
    ∧ (∀ name tbl, (name, tbl) ∈ count_tables → env.countOk tbl = false →
        (name, 0) ∈ get_current_data env st tid) := by
  refine ⟨?_, ?_, ?_⟩
  · simp [get_current_data, count_tables]
  · intro name tbl hp
    exact List.mem_map.mpr ⟨(name, tbl), hp, rfl⟩
  · intro name tbl hp h
    refine List.mem_map.mpr ⟨(name, tbl), hp, ?_⟩
    simp [h]

/-- Witness for C9 at the QnA category in the empty store. -/
theorem get_current_data_total_witness :
    ("QnA",
      if env0.countOk "data_trainer_qna" then
        ((st0.tableRows "data_trainer_qna").filter
          (fun r => r.trainer_id = "tr_001")).length
      else 0) ∈ get_current_data env0 st0 "tr_001" :=
  (get_current_data_total env0 st0 "tr_001").2.1 "QnA" "data_trainer_qna"
    (by simp [count_tables])

/-- C10: delete_data on a valid category with a row id matching no
stored row still reports the successful-deletion outcome and leaves the
table as it was: at the interface a zero-row delete is indistinguishable
from one that removed a row. -/
theorem delete_data_missing_id_success (env : Env) (st : DBState) (category t : String)
    (data_id : ℤ) (htab : tables category = some t) (hdb : env.dbOk = true)
    (hmiss : ∀ r ∈ st.tableRows t, r.id ≠ data_id) :
    (delete_data env st category data_id).2 = (true, deleteOkMsg)
    ∧ (delete_data env st category data_id).1.tableRows t = st.tableRows t := by
  constructor
  · simp [delete_data, htab, hdb]
  · simp [delete_data, htab, hdb]
    exact fun r hr => hmiss r hr

/-- Witness for C10: deleting id 7 from the empty QnA table. -/
theorem delete_data_missing_id_success_witness :
    (delete_data env0 st0 "QnA" 7).2 = (true, deleteOkMsg) :=
  (delete_data_missing_id_success env0 st0 "QnA" "data_trainer_qna" 7 rfl rfl
    (by intro r hr; simp [st0] at hr)).1

end TrainerDashboard
